import Mathlib

/-!
Verification of the NovaAvatar job-orchestration, admission-control, and
media-assembly core against its natural-language specification.

The definitions below are a shallow embedding of the Python sources:

* `src/services/video_stitcher.py`   — `VideoStitcher` (the MediaAssembler)
* `src/api/middleware/rate_limiter.py` — `RateLimiter` (the AdmissionController)
* `src/services/orchestrator.py`     — `PipelineOrchestrator`
* `src/services/conversation_orchestrator.py` — `ConversationOrchestrator`

External collaborators (ffmpeg, ffprobe, the dialogue/TTS/render models, the
wall clock) are modelled as explicit environment records; durations and
timestamps are rationals.
-/

/-- Decidable equality on `Except`, so that concrete runs of the embedded
operations can be checked by `decide`. -/
instance {ε α : Type} [DecidableEq ε] [DecidableEq α] :
    DecidableEq (Except ε α) := fun x y =>
  match x, y with
  | .ok a, .ok b =>
    if h : a = b then isTrue (by rw [h])
    else isFalse (fun hc => h (Except.ok.inj hc))
  | .error a, .error b =>
    if h : a = b then isTrue (by rw [h])
    else isFalse (fun hc => h (Except.error.inj hc))
  | .ok _, .error _ => isFalse (fun hc => Except.noConfusion hc)
  | .error _, .ok _ => isFalse (fun hc => Except.noConfusion hc)

namespace NovaAvatar

/-! ## MediaAssembler: `src/services/video_stitcher.py` -/

/-- `VideoSegment` (video_stitcher.py lines 15-20). `start_time` is unused by
the stitching code paths and omitted. -/
structure VideoSegment where
  video_path : String
  avatar_name : String
  duration : Option ℚ := none
  deriving DecidableEq, Repr

/-- `StitchedVideo` (video_stitcher.py lines 23-27). -/
structure StitchedVideo where
  video_path : String
  total_duration : ℚ
  num_segments : ℕ
  deriving DecidableEq, Repr

/-- Exceptions raised by the stitcher: `FileNotFoundError` (line 76) and a
`subprocess.CalledProcessError` escaping from ffmpeg (lines 113-115, 268-272). -/
inductive StitchError where
  | fileNotFound (path : String)
  | ffmpegError
  deriving DecidableEq, Repr

/-- Environment of external effects seen by the stitcher: the filesystem
(`Path.exists`, line 75), ffprobe durations of the input files
(`_get_video_duration`, lines 195-211), and whether each of the two ffmpeg
invocations succeeds (the xfade filter graph, line 180, and the concat
demuxer, line 112). -/
structure MediaEnv where
  fileExists : String → Bool
  probeDuration : String → ℚ
  xfadeOk : Bool
  concatOk : Bool

/-- ffprobe durations of a segment list, in list order. -/
def durs (env : MediaEnv) (segments : List VideoSegment) : List ℚ :=
  segments.map (fun s => env.probeDuration s.video_path)

/-- The crossfade start offset the code computes for merge step `i`
(video_stitcher.py lines 155-157): the sum of the ffprobe durations of the
first `i` clips minus `transition_duration * i`. -/
def xfadeOffset (ds : List ℚ) (t : ℚ) (i : ℕ) : ℚ :=
  ((ds.take i).sum) - t * i

/-- Semantics of the xfade filter chain built at lines 148-165: merging the
next input `i+1` at offset `o` makes the running output end at
`o + duration(input i+1)` (ffmpeg `xfade`: the incoming stream plays out from
the offset). `builtDuration ds t i` is the output duration after inputs
`0..i` have been merged with the code's offsets. -/
def builtDuration (ds : List ℚ) (t : ℚ) : ℕ → ℚ
  | 0 => ds.headD 0
  | i + 1 => xfadeOffset ds t (i + 1) + ds.getD (i + 1) 0

/-- Duration of the final output of the xfade chain over all inputs. -/
def xfadeChainDuration (ds : List ℚ) (t : ℚ) : ℚ :=
  builtDuration ds t (ds.length - 1)

/-- `_stitch_simple` (lines 88-127): concat demuxer with stream copy; the
output duration is the exact sum of the input durations. Raises if ffmpeg
fails (line 115). -/
def stitchSimple (env : MediaEnv) (segments : List VideoSegment)
    (outputPath : String) : Except StitchError StitchedVideo :=
  if env.concatOk then
    .ok { video_path := outputPath
          total_duration := (durs env segments).sum
          num_segments := segments.length }
  else .error .ffmpegError

/-- `_stitch_with_transitions` (lines 129-193). The xfade command is only
well-formed when there are at least two inputs (the loop at line 151 builds
an empty filter graph otherwise, which ffmpeg rejects); on any ffmpeg
failure the code falls back to `_stitch_simple` on the same segments
(lines 179-185). -/
def stitchWithTransitions (env : MediaEnv) (segments : List VideoSegment)
    (outputPath : String) (transitionDuration : ℚ) :
    Except StitchError StitchedVideo :=
  if 2 ≤ segments.length ∧ env.xfadeOk = true then
    .ok { video_path := outputPath
          total_duration := xfadeChainDuration (durs env segments) transitionDuration
          num_segments := segments.length }
  else
    stitchSimple env segments outputPath

/-- `stitch_conversation` (lines 44-86): verify every input file exists
(lines 74-76), then dispatch on `add_transitions` (lines 80-83). -/
def stitchConversation (env : MediaEnv) (segments : List VideoSegment)
    (outputPath : String) (addTransitions : Bool) (transitionDuration : ℚ) :
    Except StitchError StitchedVideo :=
  match segments.find? (fun s => !env.fileExists s.video_path) with
  | some s => .error (.fileNotFound s.video_path)
  | none =>
    if addTransitions then
      stitchWithTransitions env segments outputPath transitionDuration
    else
      stitchSimple env segments outputPath

/-! ## AdmissionController: `src/api/middleware/rate_limiter.py`

In-memory backend, one client bucket (`self.requests[client_id]`, a list of
timestamps; the `defaultdict` yields `[]` for a fresh client). The window
size is hard-coded to 60 seconds (`self.window_size = 60`, line 30). -/

/-- `self.window_size` (rate_limiter.py line 30). -/
def windowSize : ℚ := 60

/-- The pruning step of `_is_allowed_memory` (lines 130-133): keep exactly
the timestamps strictly newer than `now - window_size`. -/
def pruneRequests (now : ℚ) (reqs : List ℚ) : List ℚ :=
  reqs.filter (fun rt => now - windowSize < rt)

/-- `_is_allowed_memory` (lines 124-135): prune, store the pruned list back,
and admit iff the retained count is below the limit. Returns the decision
together with the new stored list. -/
def isAllowedMemory (limit : ℕ) (now : ℚ) (reqs : List ℚ) : Bool × List ℚ :=
  let pruned := pruneRequests now reqs
  (decide (pruned.length < limit), pruned)

/-- `_record_request_memory` (lines 154-156): append `now`. -/
def recordRequestMemory (now : ℚ) (reqs : List ℚ) : List ℚ :=
  reqs ++ [now]

/-- The check-and-record sequence of `dispatch` for a rate-limited path
(lines 58-70): check, raise 429 on denial, otherwise record. On the
in-memory backend neither `_is_allowed` nor `_record_request` contains a
suspension point, so under the asyncio event loop the whole sequence runs
as one atomic step of the task; concurrent tasks therefore execute these
steps in some sequential order. -/
def dispatchStep (limit : ℕ) (now : ℚ) (reqs : List ℚ) : Bool × List ℚ :=
  let res := isAllowedMemory limit now reqs
  if res.1 then (true, recordRequestMemory now res.2) else (false, res.2)

/-- Run a sequence of requests (their timestamps, in execution order) from
one client through `dispatchStep`, counting admissions. -/
def runRequests (limit : ℕ) (times : List ℚ) (reqs : List ℚ) : ℕ × List ℚ :=
  times.foldl
    (fun acc now =>
      let r := dispatchStep limit now acc.2
      (acc.1 + (if r.1 then 1 else 0), r.2))
    (0, reqs)

/-! ## PipelineOrchestrator: `src/services/orchestrator.py` -/

/-- `JobStatus` (orchestrator.py lines 26-36). -/
inductive JobStatus where
  | pending
  | scraping
  | generatingScript
  | generatingImage
  | generatingAudio
  | generatingVideo
  | completed
  | failed
  | queuedForReview
  deriving DecidableEq, Repr

/-- The outcome of each external collaborator call made by
`create_video_from_content`, plus the two configuration flags the control
flow depends on (`auto_approve`, line 319, and `USE_AVATAR_COMPOSITING`,
line 275). `fetchOk` covers the optional stage-0 full-article fetch. -/
structure PipelineEnv where
  fetchOk : Bool
  scriptOk : Bool
  imageOk : Bool
  audioOk : Bool
  compositeOk : Bool
  videoOk : Bool
  useCompositing : Bool
  autoApprove : Bool
  deriving DecidableEq

/-- The sequence of `(status, progress)` pairs persisted by `_save_jobs`
during one `create_video_from_content` run (orchestrator.py lines 171-344),
in order: creation at `GENERATING_SCRIPT`/0 (lines 197-204), then after each
stage (lines 233-236, 252-255, 267-270, 294-295, 315-326), with the
`except` handler persisting `FAILED` at the current progress (lines
334-339). Progress callbacks are modelled as non-failing (fire-and-forget
sinks). -/
def pipelineTrace (env : PipelineEnv) : List (JobStatus × ℕ) :=
  [(.generatingScript, 0)] ++
  (if env.fetchOk = false then [(.failed, 0)] else
   if env.scriptOk = false then [(.failed, 0)] else
   [(.generatingImage, 30)] ++
   (if env.imageOk = false then [(.failed, 30)] else
    [(.generatingAudio, 50)] ++
    (if env.audioOk = false then [(.failed, 50)] else
     [(.generatingVideo, 60)] ++
     (if env.useCompositing ∧ env.compositeOk = false then [(.failed, 60)] else
      [(.generatingVideo, 70)] ++
      (if env.videoOk = false then [(.failed, 70)] else
       if env.autoApprove then [(.completed, 100)]
       else [(.queuedForReview, 100)])))))

/-- The transition relation asserted by the specification: the linear stage
path, terminal fan-in to `failed` from every non-terminal state,
`queuedForReview → completed` (approval), and stuttering (a persisted write
that does not change the status is not a transition). -/
def allowedEdge : JobStatus → JobStatus → Bool
  | s, s' =>
    s = s' ||
    (match s, s' with
     | .pending, .generatingScript => true
     | .generatingScript, .generatingImage => true
     | .generatingImage, .generatingAudio => true
     | .generatingAudio, .generatingVideo => true
     | .generatingVideo, .completed => true
     | .generatingVideo, .queuedForReview => true
     | .queuedForReview, .completed => true
     | .completed, _ => false
     | .failed, _ => false
     | _, .failed => true
     | _, _ => false)

/-- The job record fields the approval path touches (orchestrator.py lines
39-53). -/
structure VideoJob where
  job_id : String
  status : JobStatus
  progress : ℕ
  error : Option String := none
  deriving DecidableEq, Repr

/-- Errors raised by `approve_video`: `ValueError` for a missing job
(line 385) and `ValueError` for a job not in the review queue (line 388). -/
inductive OrchError where
  | jobNotFound
  | notInReviewQueue
  deriving DecidableEq, Repr

/-- Orchestrator state visible to `approve_video`: the jobs map
(`self.jobs`) and the review-queue files (`self.queue_dir`, one file per
queued job id). -/
structure OrchState where
  jobs : List (String × VideoJob)
  queueFiles : List String
  deriving DecidableEq, Repr

/-- `approve_video` (orchestrator.py lines 379-402): look the job up; raise
before any mutation if missing or not `QUEUED_FOR_REVIEW`; otherwise set
`COMPLETED`, persist, delete the queue file, and return the job. -/
def approveVideo (st : OrchState) (jobId : String) :
    Except OrchError (OrchState × VideoJob) :=
  match st.jobs.lookup jobId with
  | none => .error .jobNotFound
  | some job =>
    if job.status ≠ JobStatus.queuedForReview then
      .error .notInReviewQueue
    else
      let job' := { job with status := JobStatus.completed }
      .ok ({ jobs := st.jobs.map (fun p => if p.1 = jobId then (p.1, job') else p)
             queueFiles := st.queueFiles.filter (fun f => f ≠ jobId) },
           job')

/-! ## ConversationOrchestrator: `src/services/conversation_orchestrator.py` -/

/-- `AvatarProfile` row fields used by `create_conversation`
(database/models.py; conversation_orchestrator.py lines 122-145, 170-217). -/
structure AvatarProfile where
  id : String
  name : String
  personality : String
  description : Option String := none
  image_path : Option String := none
  voice_style : Option String := none
  deriving DecidableEq, Repr

/-- One `(actor, text)` pair returned by the dialogue-text collaborator
(`DialogueExchange` in dialogue_generator.py; the orchestrator reads only
`avatar_name` and `text`). -/
structure DialogueExchange where
  avatar_name : String
  text : String
  deriving DecidableEq, Repr

/-- `DialogueLine` row as created and updated by the loop at
conversation_orchestrator.py lines 168-229. -/
structure DialogueLineRec where
  conversation_id : String
  avatar_id : String
  sequence : ℕ
  text : String
  audio_path : Option String := none
  video_path : Option String := none
  deriving DecidableEq, Repr

/-- `Conversation` row fields touched by `create_conversation`
(lines 101-113, 243-250, 258-262). -/
structure ConversationRec where
  conversation_id : String
  title : String
  topic : String
  num_avatars : ℕ
  num_exchanges : ℕ
  status : String
  progress : ℕ
  error : Option String := none
  final_video_path : Option String := none
  deriving DecidableEq, Repr

/-- Errors the conversation pipeline can raise: the avatar-validation
`ValueError` (line 128), the `IndexError` from `avatars[0]` on an empty
avatar list (line 173), a collaborator failure (dialogue, TTS or render),
and a stitcher exception (propagated from `stitch_conversation`). -/
inductive ConvError where
  | avatarNotFound (id : String)
  | lineIndexError
  | collaboratorFailed (msg : String)
  | stitchFailed (e : StitchError)
  deriving DecidableEq, Repr

/-- `str(e)` as recorded into `conversation.error` (line 261). -/
def ConvError.message : ConvError → String
  | .avatarNotFound id => "Avatar not found: " ++ id
  | .lineIndexError => "list index out of range"
  | .collaboratorFailed msg => msg
  | .stitchFailed _ => "stitching failed"

/-- Python `x or default` for an optional string: `None` and the empty
string both fall through to the default. -/
def pyOr (o : Option String) (d : String) : String :=
  match o with
  | some s => if s = "" then d else s
  | none => d

/-- External collaborators of `create_conversation`: the profile table, the
dialogue-text model (a function of the requested exchange count), TTS (a
function of the line text), the render model (a function of prompt, image
path and output name), and the media environment used by the stitcher. -/
structure ConvEnv where
  profiles : List AvatarProfile
  dialogue : ℕ → Except String (List DialogueExchange)
  tts : String → Except String String
  renderVideo : String → String → String → Except String (String × ℚ)
  media : MediaEnv

/-- Step 1 (lines 121-130): resolve every `avatar_id` against the profile
table, failing with `ValueError` on the first unknown id. -/
def loadAvatars (profiles : List AvatarProfile) :
    List String → Except ConvError (List AvatarProfile)
  | [] => .ok []
  | id :: rest =>
    match profiles.find? (fun a => a.id = id) with
    | none => .error (.avatarNotFound id)
    | some a =>
      match loadAvatars profiles rest with
      | .error e => .error e
      | .ok as_ => .ok (a :: as_)

/-- Avatar selection for one exchange (lines 170-173): first profile whose
name matches, else `avatars[0]`; `none` models the `IndexError` when the
list is empty. -/
def pickAvatar (avatars : List AvatarProfile) (name : String) :
    Option AvatarProfile :=
  match avatars.find? (fun a => a.name = name) with
  | some a => some a
  | none => avatars.head?

/-- The per-line loop (lines 168-229), starting at sequence index `i`:
create the `DialogueLine` row (committed before audio), run TTS, build the
render prompt and image path from the chosen avatar, run the render, and
collect the `VideoSegment` for stitching. On a failure the rows committed
so far (including the partially filled current row) remain in the
database. -/
def processLines (env : ConvEnv) (cid : String) (avatars : List AvatarProfile) :
    ℕ → List DialogueExchange →
    List DialogueLineRec × List VideoSegment × Option ConvError
  | _, [] => ([], [], none)
  | i, ex :: rest =>
    match pickAvatar avatars ex.avatar_name with
    | none => ([], [], some ConvError.lineIndexError)
    | some avatar =>
      let bare : DialogueLineRec :=
        { conversation_id := cid, avatar_id := avatar.id, sequence := i
          text := ex.text }
      match env.tts ex.text with
      | .error e => ([bare], [], some (ConvError.collaboratorFailed e))
      | .ok audioPath =>
        let prompt := pyOr avatar.description avatar.name ++ " speaking: " ++
          ex.text.take 100
        let image := pyOr avatar.image_path "examples/images/bill.png"
        match env.renderVideo prompt image ("conv_" ++ cid ++ "_line_" ++ toString i) with
        | .error e =>
          ([{ bare with audio_path := some audioPath }], [],
           some (ConvError.collaboratorFailed e))
        | .ok (videoPath, videoDur) =>
          let line := { bare with audio_path := some audioPath
                                  video_path := some videoPath }
          let seg : VideoSegment :=
            { video_path := videoPath, avatar_name := avatar.name
              duration := some videoDur }
          let r := processLines env cid avatars (i + 1) rest
          (line :: r.1, seg :: r.2.1, r.2.2)

/-- The database rows `create_conversation` leaves behind. -/
structure ConvDB where
  conversations : List ConversationRec
  lines : List DialogueLineRec
  deriving Repr

/-- The `except` handler (lines 258-262): record the error and commit
`status = "failed"`. -/
def markFailed (c : ConversationRec) (msg : String) : ConversationRec :=
  { c with status := "failed", error := some msg }

/-- `create_conversation` (conversation_orchestrator.py lines 60-263). The
conversation row is created and committed with `status="generating"` before
anything else (lines 101-113); then avatars are validated, the dialogue
collaborator is called once with the requested count, each returned
exchange is processed in order, and with `stitch_videos` set and more than
one segment the clips are stitched (with `transition_duration` left at the
stitcher default 0.3) before the row is marked completed. Any exception is
recorded on the row and re-raised. -/
def create_conversation (env : ConvEnv) (cid : String) (title topic : String)
    (avatar_ids : List String) (num_exchanges : ℕ)
    (stitch_videos add_transitions : Bool) :
    ConvDB × Except ConvError ConversationRec :=
  let conv0 : ConversationRec :=
    { conversation_id := cid, title := title, topic := topic
      num_avatars := avatar_ids.length, num_exchanges := num_exchanges
      status := "generating", progress := 0 }
  match loadAvatars env.profiles avatar_ids with
  | .error e =>
    ({ conversations := [markFailed conv0 e.message], lines := [] }, .error e)
  | .ok avatars =>
    match env.dialogue num_exchanges with
    | .error msg =>
      ({ conversations := [markFailed conv0 msg], lines := [] },
       .error (.collaboratorFailed msg))
    | .ok exchanges =>
      let r := processLines env cid avatars 0 exchanges
      match r.2.2 with
      | some e =>
        ({ conversations := [markFailed conv0 e.message], lines := r.1 },
         .error e)
      | none =>
        if stitch_videos ∧ 1 < r.2.1.length then
          match stitchConversation env.media r.2.1 ("conversation_" ++ cid)
              add_transitions (3/10) with
          | .error e =>
            ({ conversations := [markFailed conv0 (ConvError.stitchFailed e).message]
               lines := r.1 }, .error (.stitchFailed e))
          | .ok stitched =>
            let conv' := { conv0 with status := "completed", progress := 100
                                      final_video_path := some stitched.video_path }
            ({ conversations := [conv'], lines := r.1 }, .ok conv')
        else
          let conv' := { conv0 with status := "completed", progress := 100 }
          ({ conversations := [conv'], lines := r.1 }, .ok conv')

/-! ## Theorems -/

/-- After merging inputs `0..i`, the output built by the code's offsets has
duration `(sum of the first i+1 clip durations) - t * i`. -/
lemma builtDuration_eq (ds : List ℚ) (t : ℚ) :
    ∀ i, i < ds.length → builtDuration ds t i = (ds.take (i + 1)).sum - t * i
  | 0, h => by
    cases ds with
    | nil => simp at h
    | cons d l => simp [builtDuration]
  | i + 1, h => by
    have hget : ds.getD (i + 1) 0 = ds[i + 1] := List.getD_eq_getElem ds 0 h
    rw [builtDuration, xfadeOffset, hget, List.sum_take_succ ds (i + 1) h]
    push_cast
    ring

/-- Total duration of the xfade chain: sum of the clip durations minus
`(count - 1) * t`. -/
lemma xfadeChainDuration_eq (ds : List ℚ) (t : ℚ) (h : ds ≠ []) :
    xfadeChainDuration ds t = ds.sum - ((ds.length : ℚ) - 1) * t := by
  have hlen : 0 < ds.length := List.length_pos.mpr h
  have h1 : ds.length - 1 < ds.length := Nat.sub_lt hlen one_pos
  rw [xfadeChainDuration, builtDuration_eq ds t _ h1]
  have h2 : ds.length - 1 + 1 = ds.length := by omega
  rw [h2, List.take_length]
  have hcast : ((ds.length - 1 : ℕ) : ℚ) = (ds.length : ℚ) - 1 := by
    have h3 : (1 : ℕ) ≤ ds.length := hlen
    push_cast [h3]
    ring
  rw [hcast]
  ring

/-- Claim C1: for every non-empty segment list with all files present and a
working transition engine, stitching with transitions yields total duration
`sum of clip durations - (count - 1) * transitionLen`; the crossfade before
clip `i+1` starts at `sum of the first i clip durations - i * transitionLen`,
which is exactly the output duration built so far minus `transitionLen`;
and stitching without transitions yields the exact sum. -/
theorem C1_media_assembler_durations (env : MediaEnv)
    (segments : List VideoSegment) (name : String) (t : ℚ)
    (hne : segments ≠ [])
    (hex : ∀ s ∈ segments, env.fileExists s.video_path = true)
    (hx : env.xfadeOk = true) (hc : env.concatOk = true)
    (_ht0 : 0 ≤ t) (_htlt : ∀ d ∈ durs env segments, t < d) :
    (∃ out, stitchConversation env segments name true t = .ok out ∧
      out.total_duration =
        (durs env segments).sum - ((segments.length : ℚ) - 1) * t) ∧
    (∀ i, 1 ≤ i → i < segments.length →
      xfadeOffset (durs env segments) t i =
        ((durs env segments).take i).sum - t * i ∧
      xfadeOffset (durs env segments) t i =
        builtDuration (durs env segments) t (i - 1) - t) ∧
    (∃ out, stitchConversation env segments name false t = .ok out ∧
      out.total_duration = (durs env segments).sum) := by
  have hfind : segments.find? (fun s => !env.fileExists s.video_path) = none := by
    rw [List.find?_eq_none]
    intro x hx'
    simp [hex x hx']
  have hdlen : (durs env segments).length = segments.length := by
    simp [durs]
  have hdne : durs env segments ≠ [] := by
    intro hnil
    exact hne (by simpa [durs] using congrArg List.length hnil)
  refine ⟨?_, ?_, ?_⟩
  · by_cases h2 : 2 ≤ segments.length
    · have hout : stitchConversation env segments name true t =
          .ok { video_path := name
                total_duration := xfadeChainDuration (durs env segments) t
                num_segments := segments.length } := by
        simp [stitchConversation, hfind, stitchWithTransitions, h2, hx]
      refine ⟨_, hout, ?_⟩
      have heq := xfadeChainDuration_eq (durs env segments) t hdne
      rw [hdlen] at heq
      exact heq
    · have h1 : segments.length = 1 := by
        have := List.length_pos.mpr hne
        omega
      have hout : stitchConversation env segments name true t =
          .ok { video_path := name
                total_duration := (durs env segments).sum
                num_segments := segments.length } := by
        simp [stitchConversation, hfind, stitchWithTransitions, h2,
          stitchSimple, hc]
      exact ⟨_, hout, by simp [h1]⟩
  · intro i h1 hilt
    refine ⟨rfl, ?_⟩
    obtain ⟨j, rfl⟩ : ∃ j, i = j + 1 := ⟨i - 1, by omega⟩
    have hj : j < (durs env segments).length := by omega
    simp only [Nat.add_sub_cancel]
    rw [builtDuration_eq (durs env segments) t j hj, xfadeOffset]
    push_cast
    ring_nf
  · have hout : stitchConversation env segments name false t =
        .ok { video_path := name
              total_duration := (durs env segments).sum
              num_segments := segments.length } := by
      simp [stitchConversation, hfind, stitchSimple, hc]
    exact ⟨_, hout, rfl⟩

/-- A concrete media environment for witnesses: every file exists, every
input clip probes as 5 seconds long, and both ffmpeg invocations succeed. -/
def mediaEnvAll5 : MediaEnv :=
  { fileExists := fun _ => true
    probeDuration := fun _ => 5
    xfadeOk := true
    concatOk := true }

/-- Three 5-second clips, as in the spec's round-trip example. -/
def threeClips : List VideoSegment :=
  [{ video_path := "a.mp4", avatar_name := "A" },
   { video_path := "b.mp4", avatar_name := "B" },
   { video_path := "c.mp4", avatar_name := "C" }]

/-- Concrete run: three 5-second clips stitched with `transitionLen = 1`
come out 13 seconds long. -/
lemma stitch_three_5s_with_transitions :
    stitchConversation mediaEnvAll5 threeClips "out" true 1 =
      .ok { video_path := "out", total_duration := 13, num_segments := 3 } := by
  norm_num [stitchConversation, stitchWithTransitions, xfadeChainDuration,
    builtDuration, xfadeOffset, durs, threeClips, mediaEnvAll5, List.find?]

/-- Concrete run: three 5-second clips concatenated without transitions come
out 15 seconds long. -/
lemma stitch_three_5s_simple :
    stitchConversation mediaEnvAll5 threeClips "out" false 1 =
      .ok { video_path := "out", total_duration := 15, num_segments := 3 } := by
  norm_num [stitchConversation, stitchSimple, durs, threeClips, mediaEnvAll5,
    List.find?]

/-- Witness for C1: clips of durations `[5,5,5]` with `transitionLen = 1`
assemble to total duration 13, and to 15 without transitions. -/
theorem C1_media_assembler_durations_witness :
    ((threeClips ≠ [] ∧
      (∀ s ∈ threeClips, mediaEnvAll5.fileExists s.video_path = true) ∧
      mediaEnvAll5.xfadeOk = true ∧ mediaEnvAll5.concatOk = true ∧
      (0 : ℚ) ≤ 1 ∧ ∀ d ∈ durs mediaEnvAll5 threeClips, (1 : ℚ) < d) ∧
     ((∃ out, stitchConversation mediaEnvAll5 threeClips "out" true 1 = .ok out ∧
        out.total_duration =
          (durs mediaEnvAll5 threeClips).sum - ((threeClips.length : ℚ) - 1) * 1) ∧
      (∀ i, 1 ≤ i → i < threeClips.length →
        xfadeOffset (durs mediaEnvAll5 threeClips) 1 i =
          ((durs mediaEnvAll5 threeClips).take i).sum - 1 * i ∧
        xfadeOffset (durs mediaEnvAll5 threeClips) 1 i =
          builtDuration (durs mediaEnvAll5 threeClips) 1 (i - 1) - 1) ∧
      (∃ out, stitchConversation mediaEnvAll5 threeClips "out" false 1 = .ok out ∧
        out.total_duration = (durs mediaEnvAll5 threeClips).sum))) ∧
    stitchConversation mediaEnvAll5 threeClips "out" true 1 =
      .ok { video_path := "out", total_duration := 13, num_segments := 3 } ∧
    stitchConversation mediaEnvAll5 threeClips "out" false 1 =
      .ok { video_path := "out", total_duration := 15, num_segments := 3 } :=
  ⟨⟨⟨by decide, by decide, rfl, rfl, by decide, by decide⟩,
    C1_media_assembler_durations mediaEnvAll5 threeClips "out" 1
      (by decide) (by decide) rfl rfl (by decide) (by decide)⟩,
   stitch_three_5s_with_transitions, stitch_three_5s_simple⟩

/-- Two 5-second clips (under `mediaEnvAll5`). -/
def twoClips : List VideoSegment :=
  [{ video_path := "a.mp4", avatar_name := "A" },
   { video_path := "b.mp4", avatar_name := "B" }]

/-- Claim C2 counterexample: `stitch_conversation` performs no
`transition_duration` validation. With two 5-second clips, a transition
length of 10 (≥ the shortest clip) as well as a negative transition length
are both accepted — the call is not rejected with a validation error,
whether the transition engine then succeeds or fails. -/
theorem C2_no_validation_counterexample :
    (stitchConversation mediaEnvAll5 twoClips "out" true 10).isOk = true ∧
    (stitchConversation { mediaEnvAll5 with xfadeOk := false }
      twoClips "out" true 10).isOk = true ∧
    (stitchConversation mediaEnvAll5 twoClips "out" true (-1)).isOk = true ∧
    (stitchConversation { mediaEnvAll5 with xfadeOk := false }
      twoClips "out" true (-1)).isOk = true := by
  refine ⟨?_, ?_, ?_, ?_⟩ <;> rfl

/-- Claim C2 amended: the only precondition `stitch_conversation` enforces
is that every segment's file exists (raising `FileNotFoundError` otherwise);
no check on `transition_duration` or the clip durations is made, so for any
transition length whatsoever — negative or at least the shortest clip's
duration included — the call proceeds into the transition engine (or its
concat fallback) and produces an output instead of a validation error. -/
theorem C2_no_validation_amended (env : MediaEnv)
    (segments : List VideoSegment) (name : String) (t : ℚ)
    (hex : ∀ s ∈ segments, env.fileExists s.video_path = true)
    (hx : env.xfadeOk = true) (hc : env.concatOk = true) :
    ∃ out, stitchConversation env segments name true t = .ok out := by
  have hfind : segments.find? (fun s => !env.fileExists s.video_path) = none := by
    rw [List.find?_eq_none]
    intro x hx'
    simp [hex x hx']
  by_cases h2 : 2 ≤ segments.length
  · have hout : stitchConversation env segments name true t =
        .ok { video_path := name
              total_duration := xfadeChainDuration (durs env segments) t
              num_segments := segments.length } := by
      simp [stitchConversation, hfind, stitchWithTransitions, h2, hx]
    exact ⟨_, hout⟩
  · have hout : stitchConversation env segments name true t =
        .ok { video_path := name
              total_duration := (durs env segments).sum
              num_segments := segments.length } := by
      simp [stitchConversation, hfind, stitchWithTransitions, h2, stitchSimple, hc]
    exact ⟨_, hout⟩

/-- Witness for the amended C2: the `transitionLen = 10 ≥ shortest = 5` call
that the claim says must be rejected instead succeeds. -/
theorem C2_no_validation_amended_witness :
    (∀ s ∈ twoClips, mediaEnvAll5.fileExists s.video_path = true) ∧
    ∃ out, stitchConversation mediaEnvAll5 twoClips "out" true 10 = .ok out :=
  ⟨by decide,
   C2_no_validation_amended mediaEnvAll5 twoClips "out" 10 (by decide) rfl rfl⟩

/-- Claim C9: when the transition engine fails, `_stitch_with_transitions`
falls back to the plain concatenation of the same segments in the same
order, so the call behaves exactly like the no-transition path, and (when
the concat engine works and every file exists) returns a stitched output of
duration equal to the exact sum of the clip durations instead of failing. -/
theorem C9_transition_engine_fallback (env : MediaEnv)
    (segments : List VideoSegment) (name : String) (t : ℚ)
    (hfail : env.xfadeOk = false) :
    stitchConversation env segments name true t =
      stitchConversation env segments name false t ∧
    ((∀ s ∈ segments, env.fileExists s.video_path = true) →
      env.concatOk = true →
      ∃ out, stitchConversation env segments name true t = .ok out ∧
        out.total_duration = (durs env segments).sum) := by
  have hmain : stitchConversation env segments name true t =
      stitchConversation env segments name false t := by
    unfold stitchConversation
    cases hfind : segments.find? (fun s => !env.fileExists s.video_path) with
    | some s => rfl
    | none => simp [stitchWithTransitions, hfail]
  refine ⟨hmain, fun hex hc => ?_⟩
  have hfind : segments.find? (fun s => !env.fileExists s.video_path) = none := by
    rw [List.find?_eq_none]
    intro x hx'
    simp [hex x hx']
  have hout : stitchConversation env segments name false t =
      .ok { video_path := name
            total_duration := (durs env segments).sum
            num_segments := segments.length } := by
    simp [stitchConversation, hfind, stitchSimple, hc]
  exact ⟨_, by rw [hmain, hout], rfl⟩

/-- Witness for C9: with a failing transition engine, stitching three
5-second clips with transitions returns the 15-second plain concatenation. -/
theorem C9_transition_engine_fallback_witness :
    ({ mediaEnvAll5 with xfadeOk := false } : MediaEnv).xfadeOk = false ∧
    (stitchConversation { mediaEnvAll5 with xfadeOk := false }
        threeClips "out" true 1 =
      stitchConversation { mediaEnvAll5 with xfadeOk := false }
        threeClips "out" false 1 ∧
    ((∀ s ∈ threeClips,
        ({ mediaEnvAll5 with xfadeOk := false } : MediaEnv).fileExists
          s.video_path = true) →
      ({ mediaEnvAll5 with xfadeOk := false } : MediaEnv).concatOk = true →
      ∃ out, stitchConversation { mediaEnvAll5 with xfadeOk := false }
          threeClips "out" true 1 = .ok out ∧
        out.total_duration =
          (durs { mediaEnvAll5 with xfadeOk := false } threeClips).sum)) :=
  ⟨rfl, C9_transition_engine_fallback { mediaEnvAll5 with xfadeOk := false }
    threeClips "out" 1 rfl⟩

/-- Pruning at the same instant the timestamps were recorded keeps all of
them (the window is 60 seconds wide and `T - 60 < T`). -/
lemma prune_replicate_same (T : ℚ) (n : ℕ) :
    pruneRequests T (List.replicate n T) = List.replicate n T := by
  unfold pruneRequests
  apply List.filter_eq_self.mpr
  intro a ha
  rw [List.eq_of_mem_replicate ha]
  simp only [decide_eq_true_eq, windowSize]
  linarith

/-- Pruning 61 seconds later discards timestamps recorded at `T`. -/
lemma prune_after_61 (T : ℚ) (n : ℕ) :
    pruneRequests (T + 61) (List.replicate n T) = [] := by
  unfold pruneRequests
  rw [List.filter_eq_nil_iff]
  intro a ha
  rw [List.eq_of_mem_replicate ha]
  simp only [decide_eq_true_eq, windowSize]
  intro hlt
  linarith

/-- `m` check-and-record operations from one client, all at instant `T`,
admit exactly `min m limit` of them and leave `min m limit` retained
timestamps, regardless of `m`. -/
lemma runRequests_replicate (limit : ℕ) (T : ℚ) :
    ∀ m, runRequests limit (List.replicate m T) [] =
      (min m limit, List.replicate (min m limit) T)
  | 0 => by simp [runRequests]
  | m + 1 => by
    have ih := runRequests_replicate limit T m
    unfold runRequests at ih ⊢
    rw [List.replicate_succ', List.foldl_append, ih]
    simp only [List.foldl_cons, List.foldl_nil]
    unfold dispatchStep isAllowedMemory
    rw [prune_replicate_same T (min m limit)]
    by_cases hm : m < limit
    · have h1 : min m limit = m := min_eq_left (le_of_lt hm)
      have h2 : min (m + 1) limit = m + 1 := min_eq_left hm
      simp [h1, h2, recordRequestMemory, hm, List.replicate_succ']
    · have h1 : min m limit = limit := min_eq_right (le_of_not_lt hm)
      have h2 : min (m + 1) limit = limit := min_eq_right (by omega)
      simp [h1, h2]

/-- Claim C4: with `limit = 5` and the 60-second window, five requests at
one instant are all admitted, the sixth at the same instant is denied, and
the same client is admitted again 61 seconds later; and at every evaluation
the retained timestamp list is exactly the recorded timestamps inside the
trailing window — its count equals the in-window request count, and a
request is denied precisely when that in-window count has reached the
limit, so timestamps older than the window are never used to deny. -/
theorem C4_rate_limiter_sliding_window :
    (∀ T : ℚ,
      runRequests 5 (List.replicate 5 T) [] = (5, List.replicate 5 T) ∧
      dispatchStep 5 T (List.replicate 5 T) = (false, List.replicate 5 T) ∧
      (dispatchStep 5 (T + 61) (List.replicate 5 T)).1 = true) ∧
    (∀ (limit : ℕ) (now : ℚ) (reqs : List ℚ),
      (isAllowedMemory limit now reqs).2 =
        reqs.filter (fun rt => now - windowSize < rt) ∧
      (isAllowedMemory limit now reqs).2.length =
        (reqs.filter (fun rt => now - windowSize < rt)).length ∧
      ((isAllowedMemory limit now reqs).1 = false ↔
        limit ≤ (reqs.filter (fun rt => now - windowSize < rt)).length)) := by
  constructor
  · intro T
    refine ⟨?_, ?_, ?_⟩
    · simpa using runRequests_replicate 5 T 5
    · unfold dispatchStep isAllowedMemory
      rw [prune_replicate_same T 5]
      simp
    · unfold dispatchStep isAllowedMemory
      rw [prune_after_61 T 5]
      simp
  · intro limit now reqs
    refine ⟨rfl, rfl, ?_⟩
    unfold isAllowedMemory pruneRequests
    simp only [decide_eq_false_iff_not, Nat.not_lt]

/-- Claim C5: the in-memory check-and-record contains no suspension point
between the check (rate_limiter.py line 58) and the record (line 70), so
under the asyncio event loop each request's check-and-record executes
atomically, and any concurrent schedule of `limit + N` simultaneous
requests from one client is some sequential order of identical atomic
operations: exactly `limit` of them are admitted, never more. -/
theorem C5_admission_exactly_limit (limit N : ℕ) (T : ℚ) :
    (runRequests limit (List.replicate (limit + N) T) []).1 = limit := by
  rw [runRequests_replicate]
  exact min_eq_right (Nat.le_add_right _ _)

/-- Executable check for `List.Chain'`, used to evaluate the transition
relation on concrete pipeline traces. -/
def chainB {α : Type} (r : α → α → Bool) : List α → Bool
  | [] => true
  | [_] => true
  | a :: b :: l => r a b && chainB r (b :: l)

/-- Soundness of `chainB` for `List.Chain'`. -/
lemma chain'_of_chainB {α : Type} (r : α → α → Bool) :
    ∀ l, chainB r l = true → List.Chain' (fun a b => r a b = true) l
  | [], _ => List.chain'_nil
  | [a], _ => List.chain'_singleton a
  | a :: b :: l, h => by
    rw [chainB, Bool.and_eq_true] at h
    exact List.chain'_cons.mpr ⟨h.1, chain'_of_chainB r (b :: l) h.2⟩

/-- Boolean form of one legal step: an allowed edge with non-decreasing
progress unless the step enters `failed`. -/
def okStep (a b : JobStatus × ℕ) : Bool :=
  allowedEdge a.1 b.1 && (b.1 == JobStatus.failed || decide (a.2 ≤ b.2))

/-- `okStep` implies the propositional step condition. -/
lemma okStep_implies (a b : JobStatus × ℕ) (h : okStep a b = true) :
    allowedEdge a.1 b.1 = true ∧ (b.1 ≠ JobStatus.failed → a.2 ≤ b.2) := by
  rw [okStep, Bool.and_eq_true, Bool.or_eq_true] at h
  refine ⟨h.1, fun hne => ?_⟩
  rcases h.2 with h2 | h2
  · exact absurd (beq_iff_eq.mp h2) hne
  · exact of_decide_eq_true h2

/-- Looking a job up when it is absent makes `approve_video` raise the
"not found" `ValueError` (orchestrator.py line 385). -/
lemma approveVideo_lookup_none (st : OrchState) (jobId : String)
    (hl : st.jobs.lookup jobId = none) :
    approveVideo st jobId = .error OrchError.jobNotFound := by
  unfold approveVideo
  rw [hl]

/-- `approve_video` on a job that is not `QUEUED_FOR_REVIEW` raises the
"not in review queue" `ValueError` before any mutation (line 388). -/
lemma approveVideo_not_queued (st : OrchState) (jobId : String)
    (job : VideoJob) (hl : st.jobs.lookup jobId = some job)
    (hs : job.status ≠ JobStatus.queuedForReview) :
    approveVideo st jobId = .error OrchError.notInReviewQueue := by
  unfold approveVideo
  simp only [hl]
  rw [if_pos hs]

/-- `approve_video` on a `QUEUED_FOR_REVIEW` job completes it, persists the
updated map, and deletes the queue file (lines 390-402). -/
lemma approveVideo_queued (st : OrchState) (jobId : String) (job : VideoJob)
    (hl : st.jobs.lookup jobId = some job)
    (hs : job.status = JobStatus.queuedForReview) :
    approveVideo st jobId =
      .ok ({ jobs := st.jobs.map (fun p =>
               if p.1 = jobId then
                 (p.1, { job with status := JobStatus.completed })
               else p)
             queueFiles := st.queueFiles.filter (fun f => f ≠ jobId) },
           { job with status := JobStatus.completed }) := by
  unfold approveVideo
  simp only [hl]
  rw [if_neg (not_not_intro hs)]

/-- Claim C3: every persisted status change of a job moves along the
allowed transition relation — the linear stage path ending in `completed`
or `queuedForReview`, with `failed` reachable as a fan-in from non-terminal
states — and progress never decreases on any step that does not enter
`failed`; within the pipeline itself `queuedForReview` is never followed by
anything, and the only `queuedForReview → completed` transition is the one
`approve_video` performs. -/
theorem C3_status_transition_path :
    (∀ env : PipelineEnv,
      List.Chain'
        (fun a b => allowedEdge a.1 b.1 = true ∧
          (b.1 ≠ JobStatus.failed → a.2 ≤ b.2))
        (pipelineTrace env) ∧
      List.Chain' (fun a _ => a.1 ≠ JobStatus.queuedForReview)
        (pipelineTrace env)) ∧
    (∀ (st : OrchState) (jobId : String) (res : OrchState × VideoJob),
      approveVideo st jobId = .ok res →
      (∃ job, st.jobs.lookup jobId = some job ∧
        job.status = JobStatus.queuedForReview) ∧
      res.2.status = JobStatus.completed) := by
  constructor
  · intro env
    have hb : chainB okStep (pipelineTrace env) = true ∧
        chainB (fun a _ => !(a.1 == JobStatus.queuedForReview))
          (pipelineTrace env) = true := by
      obtain ⟨a, b, c, d, e, f, g, h⟩ := env
      cases a <;> cases b <;> cases c <;> cases d <;> cases e <;> cases f <;>
        cases g <;> cases h <;> exact ⟨by decide, by decide⟩
    constructor
    · exact (chain'_of_chainB okStep _ hb.1).imp
        (fun a b hab => okStep_implies a b hab)
    · exact (chain'_of_chainB _ _ hb.2).imp
        (fun a b hab => by
          rw [Bool.not_eq_true', beq_eq_false_iff_ne] at hab
          exact hab)
  · intro st jobId res h
    cases hl : st.jobs.lookup jobId with
    | none =>
      rw [approveVideo_lookup_none st jobId hl] at h
      exact Except.noConfusion h
    | some job =>
      by_cases hs : job.status = JobStatus.queuedForReview
      · rw [approveVideo_queued st jobId job hl hs] at h
        have hres := Except.ok.inj h
        subst hres
        exact ⟨⟨job, rfl, hs⟩, rfl⟩
      · rw [approveVideo_not_queued st jobId job hl hs] at h
        exact Except.noConfusion h
/-- The collaborator environment in which every pipeline stage succeeds and
review is required (`auto_approve = False`). -/
def envAllOk : PipelineEnv :=
  { fetchOk := true, scriptOk := true, imageOk := true, audioOk := true
    compositeOk := true, videoOk := true, useCompositing := true
    autoApprove := false }

/-- A job sitting in the review queue. -/
def queuedJob : VideoJob :=
  { job_id := "j2", status := JobStatus.queuedForReview, progress := 100 }

/-- Orchestrator state with `queuedJob` queued for review. -/
def stQueued : OrchState :=
  { jobs := [("j2", queuedJob)], queueFiles := ["j2"] }

/-- `queuedJob` after approval. -/
def approvedJob : VideoJob :=
  { job_id := "j2", status := JobStatus.completed, progress := 100 }

/-- `stQueued` after approval: status completed, queue file removed. -/
def stApproved : OrchState :=
  { jobs := [("j2", approvedJob)], queueFiles := [] }

/-- Witness for C3: the all-success trace satisfies the transition
relation, and a concrete approval of a `queuedForReview` job yields a
`completed` job. -/
theorem C3_status_transition_path_witness :
    (List.Chain'
      (fun a b => allowedEdge a.1 b.1 = true ∧
        (b.1 ≠ JobStatus.failed → a.2 ≤ b.2))
      (pipelineTrace envAllOk) ∧
     List.Chain' (fun a _ => a.1 ≠ JobStatus.queuedForReview)
      (pipelineTrace envAllOk)) ∧
    ((∃ job, stQueued.jobs.lookup "j2" = some job ∧
        job.status = JobStatus.queuedForReview) ∧
      (stApproved, approvedJob).2.status = JobStatus.completed) :=
  ⟨C3_status_transition_path.1 envAllOk,
   C3_status_transition_path.2 stQueued "j2" (stApproved, approvedJob)
     (by decide)⟩

/-- A completed job and the orchestrator state holding only it. -/
def completedJob : VideoJob :=
  { job_id := "j1", status := JobStatus.completed, progress := 100 }

/-- Orchestrator state holding only the completed job `j1`. -/
def stCompleted : OrchState :=
  { jobs := [("j1", completedJob)], queueFiles := [] }

/-- Claim C6 counterexample: a second `approve` on an already-`completed`
job is not a no-op success — `approve_video` raises the same "not in
review queue" `ValueError` it raises for a failed job. -/
theorem C6_approve_completed_counterexample :
    approveVideo stCompleted "j1" = .error OrchError.notInReviewQueue := by
  decide

/-- Looking an id up after the in-place update of `approve_video` yields
the updated job. -/
lemma lookup_map_update (jobId : String) (job' : VideoJob) :
    ∀ (jobs : List (String × VideoJob)) (job : VideoJob),
      jobs.lookup jobId = some job →
      (jobs.map (fun p => if p.1 = jobId then (p.1, job') else p)).lookup
        jobId = some job'
  | [], job, h => by simp [List.lookup] at h
  | (k, v) :: rest, job, h => by
    by_cases hk : k = jobId
    · subst hk
      simp [List.lookup_cons]
    · have hne : jobId ≠ k := fun hc => hk hc.symm
      simp only [List.lookup_cons, beq_false_of_ne hne] at h
      simp only [List.map_cons, if_neg hk, List.lookup_cons,
        beq_false_of_ne hne]
      exact lookup_map_update jobId job' rest job h

/-- Claim C6 amended: `approve(id)` succeeds exactly when the job exists
with status `queuedForReview`; on success the returned job is `completed`,
the stored job under that id is the completed one, and the QueueEntry is
removed. `approve` on an already-`completed` job and on a `failed` job both
raise the same "not in review queue" state error — the former is not a
no-op success — and the error raises before any mutation. -/
theorem C6_approve_semantics (st : OrchState) (jobId : String) :
    ((∃ res, approveVideo st jobId = .ok res) ↔
      (∃ job, st.jobs.lookup jobId = some job ∧
        job.status = JobStatus.queuedForReview)) ∧
    (∀ res, approveVideo st jobId = .ok res →
      res.2.status = JobStatus.completed ∧
      res.1.jobs.lookup jobId = some res.2 ∧
      res.1.queueFiles = st.queueFiles.filter (fun f => f ≠ jobId) ∧
      jobId ∉ res.1.queueFiles) ∧
    (∀ job, st.jobs.lookup jobId = some job →
      job.status = JobStatus.completed ∨ job.status = JobStatus.failed →
      approveVideo st jobId = .error OrchError.notInReviewQueue) := by
  refine ⟨⟨?_, ?_⟩, ?_, ?_⟩
  · rintro ⟨res, hres⟩
    cases hl : st.jobs.lookup jobId with
    | none =>
      rw [approveVideo_lookup_none st jobId hl] at hres
      exact Except.noConfusion hres
    | some job =>
      by_cases hs : job.status = JobStatus.queuedForReview
      · exact ⟨job, rfl, hs⟩
      · rw [approveVideo_not_queued st jobId job hl hs] at hres
        exact Except.noConfusion hres
  · rintro ⟨job, hl, hs⟩
    exact ⟨_, approveVideo_queued st jobId job hl hs⟩
  · intro res hres
    cases hl : st.jobs.lookup jobId with
    | none =>
      rw [approveVideo_lookup_none st jobId hl] at hres
      exact Except.noConfusion hres
    | some job =>
      by_cases hs : job.status = JobStatus.queuedForReview
      · rw [approveVideo_queued st jobId job hl hs] at hres
        have hres2 := Except.ok.inj hres
        subst hres2
        refine ⟨rfl, lookup_map_update jobId _ st.jobs job hl, rfl, ?_⟩
        intro hmem
        have hpred := List.of_mem_filter hmem
        simp at hpred
      · rw [approveVideo_not_queued st jobId job hl hs] at hres
        exact Except.noConfusion hres
  · intro job hl hterm
    have hs : job.status ≠ JobStatus.queuedForReview := by
      rcases hterm with h | h <;> simp [h]
    exact approveVideo_not_queued st jobId job hl hs

/-- Witness for C6: approval succeeds on a queued job, and the concrete
completed job is rejected with the state error. -/
theorem C6_approve_semantics_witness :
    (∃ res, approveVideo stQueued "j2" = .ok res) ∧
    approveVideo stCompleted "j1" = .error OrchError.notInReviewQueue :=
  ⟨(C6_approve_semantics stQueued "j2").1.mpr ⟨queuedJob, by decide, by decide⟩,
   (C6_approve_semantics stCompleted "j1").2.2 completedJob
     (by decide) (Or.inl rfl)⟩

/-- With all files present and both ffmpeg invocations succeeding, any
stitch call succeeds and consumes every segment. -/
lemma stitchConversation_ok_of_files (env : MediaEnv)
    (segments : List VideoSegment) (name : String) (addT : Bool) (t : ℚ)
    (hex : ∀ s ∈ segments, env.fileExists s.video_path = true)
    (hx : env.xfadeOk = true) (hc : env.concatOk = true) :
    ∃ out, stitchConversation env segments name addT t = .ok out ∧
      out.num_segments = segments.length ∧ out.video_path = name := by
  have hfind : segments.find? (fun s => !env.fileExists s.video_path) = none := by
    rw [List.find?_eq_none]
    intro x hx'
    simp [hex x hx']
  cases addT with
  | false =>
    have hout : stitchConversation env segments name false t =
        .ok { video_path := name
              total_duration := (durs env segments).sum
              num_segments := segments.length } := by
      simp [stitchConversation, hfind, stitchSimple, hc]
    exact ⟨_, hout, rfl, rfl⟩
  | true =>
    by_cases h2 : 2 ≤ segments.length
    · have hout : stitchConversation env segments name true t =
          .ok { video_path := name
                total_duration := xfadeChainDuration (durs env segments) t
                num_segments := segments.length } := by
        simp [stitchConversation, hfind, stitchWithTransitions, h2, hx]
      exact ⟨_, hout, rfl, rfl⟩
    · have hout : stitchConversation env segments name true t =
          .ok { video_path := name
                total_duration := (durs env segments).sum
                num_segments := segments.length } := by
        simp [stitchConversation, hfind, stitchWithTransitions, h2,
          stitchSimple, hc]
      exact ⟨_, hout, rfl, rfl⟩

/-- A non-empty avatar list always yields a chosen avatar: the matching one
or `avatars[0]`. -/
lemma pickAvatar_some (avatars : List AvatarProfile) (hav : avatars ≠ [])
    (name : String) : ∃ a, pickAvatar avatars name = some a := by
  unfold pickAvatar
  cases h : avatars.find? (fun a => a.name = name) with
  | some a => exact ⟨a, rfl⟩
  | none =>
    cases avatars with
    | nil => exact absurd rfl hav
    | cons a rest => exact ⟨a, rfl⟩

/-- When no loaded avatar's name matches, the chosen avatar is the first
one in the list (conversation_orchestrator.py lines 170-173). -/
lemma pickAvatar_unmatched (a : AvatarProfile) (rest : List AvatarProfile)
    (name : String) (hno : ∀ av ∈ a :: rest, av.name ≠ name) :
    pickAvatar (a :: rest) name = some a := by
  unfold pickAvatar
  have hfind : (a :: rest).find? (fun av => av.name = name) = none := by
    rw [List.find?_eq_none]
    intro x hx
    simp [hno x hx]
  rw [hfind]
  rfl

/-- The per-line loop, when every collaborator call succeeds and at least
one avatar is loaded: no error, one `DialogueLine` row and one
`VideoSegment` per returned exchange, in order, with sequence numbers
assigned from the running index, each line attributed to the avatar
`pickAvatar` chooses, and each segment carrying exactly its line's rendered
clip. -/
lemma processLines_ok (env : ConvEnv) (cid : String)
    (avatars : List AvatarProfile) (hav : avatars ≠ [])
    (htts : ∀ s, ∃ p, env.tts s = .ok p)
    (hrender : ∀ p im o, ∃ v, env.renderVideo p im o = .ok v) :
    ∀ (exchanges : List DialogueExchange) (i : ℕ),
      (processLines env cid avatars i exchanges).2.2 = none ∧
      (processLines env cid avatars i exchanges).1.length = exchanges.length ∧
      (processLines env cid avatars i exchanges).2.1.length = exchanges.length ∧
      (∀ j, j < exchanges.length →
        ∃ ex avatar line seg,
          exchanges.get? j = some ex ∧
          pickAvatar avatars ex.avatar_name = some avatar ∧
          (processLines env cid avatars i exchanges).1.get? j = some line ∧
          (processLines env cid avatars i exchanges).2.1.get? j = some seg ∧
          line.sequence = i + j ∧ line.text = ex.text ∧
          line.avatar_id = avatar.id ∧ seg.avatar_name = avatar.name ∧
          line.video_path = some seg.video_path)
  | [], i => by simp [processLines]
  | ex :: rest, i => by
    obtain ⟨avatar, hp⟩ := pickAvatar_some avatars hav ex.avatar_name
    obtain ⟨ap, hap⟩ := htts ex.text
    obtain ⟨v, hv⟩ := hrender
      (pyOr avatar.description avatar.name ++ " speaking: " ++ ex.text.take 100)
      (pyOr avatar.image_path "examples/images/bill.png")
      ("conv_" ++ cid ++ "_line_" ++ toString i)
    obtain ⟨vp, vd⟩ := v
    have ih := processLines_ok env cid avatars hav htts hrender rest (i + 1)
    have hred : processLines env cid avatars i (ex :: rest) =
        ({ conversation_id := cid, avatar_id := avatar.id, sequence := i
           text := ex.text, audio_path := some ap, video_path := some vp } ::
          (processLines env cid avatars (i + 1) rest).1,
         { video_path := vp, avatar_name := avatar.name
           duration := some vd } ::
          (processLines env cid avatars (i + 1) rest).2.1,
         (processLines env cid avatars (i + 1) rest).2.2) := by
      simp only [processLines, hp, hap, hv]
    rw [hred]
    refine ⟨ih.1, by simp [ih.2.1], by simp [ih.2.2.1], ?_⟩
    intro j hj
    cases j with
    | zero =>
      exact ⟨ex, avatar, _, _, rfl, hp, rfl, rfl, by simp, rfl, rfl, rfl, rfl⟩
    | succ j =>
      obtain ⟨ex', av', line, seg, h1, h2, h3, h4, h5, h6, h7, h8, h9⟩ :=
        ih.2.2.2 j (by simpa using hj)
      refine ⟨ex', av', line, seg, by simpa using h1, h2, by simpa using h3,
        by simpa using h4, ?_, h6, h7, h8, h9⟩
      rw [h5]
      omega

/-- An unknown id among the requested avatar ids makes `loadAvatars` raise
the avatar-validation `ValueError` (for the first unknown id hit). -/
lemma loadAvatars_error_of_missing (profiles : List AvatarProfile) :
    ∀ (ids : List String) (badId : String), badId ∈ ids →
      profiles.find? (fun a => a.id = badId) = none →
      ∃ b, loadAvatars profiles ids = .error (ConvError.avatarNotFound b) ∧
        profiles.find? (fun a => a.id = b) = none
  | [], badId, hmem, _ => absurd hmem (List.not_mem_nil badId)
  | id :: rest, badId, hmem, hmiss => by
    cases hfind : profiles.find? (fun a => a.id = id) with
    | none => exact ⟨id, by simp only [loadAvatars, hfind], hfind⟩
    | some a =>
      have hne : badId ≠ id := by
        intro hc
        subst hc
        rw [hmiss] at hfind
        exact Option.noConfusion hfind
      have hmem' : badId ∈ rest := by
        rcases List.mem_cons.mp hmem with h | h
        · exact absurd h hne
        · exact h
      obtain ⟨b, hb, hbmiss⟩ :=
        loadAvatars_error_of_missing profiles rest badId hmem' hmiss
      exact ⟨b, by simp only [loadAvatars, hfind, hb], hbmiss⟩

/-- Reduction of the fully successful `create_conversation` run (stitching
enabled, more than one line): the persisted rows and the returned record. -/
lemma create_conversation_success_eq (env : ConvEnv)
    (cid title topic : String) (avatar_ids : List String) (n : ℕ) (tr : Bool)
    (avatars : List AvatarProfile) (exchanges : List DialogueExchange)
    (hload : loadAvatars env.profiles avatar_ids = .ok avatars)
    (hav : avatars ≠ [])
    (hdial : env.dialogue n = .ok exchanges)
    (htts : ∀ s, ∃ p, env.tts s = .ok p)
    (hrender : ∀ p im o, ∃ v, env.renderVideo p im o = .ok v)
    (hfiles : ∀ p, env.media.fileExists p = true)
    (hx : env.media.xfadeOk = true) (hc : env.media.concatOk = true)
    (h2 : 2 ≤ exchanges.length) :
    ∃ out,
      stitchConversation env.media
        (processLines env cid avatars 0 exchanges).2.1
        ("conversation_" ++ cid) tr (3 / 10) = .ok out ∧
      out.num_segments = exchanges.length ∧
      out.video_path = "conversation_" ++ cid ∧
      create_conversation env cid title topic avatar_ids n true tr =
        ({ conversations :=
             [{ conversation_id := cid, title := title, topic := topic
                num_avatars := avatar_ids.length, num_exchanges := n
                status := "completed", progress := 100, error := none
                final_video_path := some out.video_path }]
           lines := (processLines env cid avatars 0 exchanges).1 },
         .ok { conversation_id := cid, title := title, topic := topic
               num_avatars := avatar_ids.length, num_exchanges := n
               status := "completed", progress := 100, error := none
               final_video_path := some out.video_path }) := by
  have hpl := processLines_ok env cid avatars hav htts hrender exchanges 0
  obtain ⟨out, hout, hnum, hname⟩ := stitchConversation_ok_of_files env.media
    (processLines env cid avatars 0 exchanges).2.1 ("conversation_" ++ cid)
    tr (3 / 10) (fun s _ => hfiles s.video_path) hx hc
  refine ⟨out, hout, by rw [hnum, hpl.2.2.1], hname, ?_⟩
  have hcond : (True ∧
      1 < (processLines env cid avatars 0 exchanges).2.1.length) :=
    ⟨trivial, by rw [hpl.2.2.1]; omega⟩
  simp only [create_conversation, hload, hdial, hpl.1]
  rw [if_pos hcond]
  simp only [hout]

/-- The conversation environment with no known avatar profiles. -/
def emptyConvEnv : ConvEnv :=
  { profiles := []
    dialogue := fun _ => .ok []
    tts := fun _ => .ok "audio.wav"
    renderVideo := fun _ _ _ => .ok ("video.mp4", 5)
    media := mediaEnvAll5 }

/-- Claim C7 counterexample: a create-conversation call with an unknown
avatar id does fail with the input `ValueError`, but it is not rejected
before state mutation — the conversation row has already been committed,
and the failed call leaves it persisted with status "failed" and the error
recorded. -/
theorem C7_record_persisted_counterexample :
    (create_conversation emptyConvEnv "c1" "T" "topic" ["x"] 3 true true).2 =
      .error (ConvError.avatarNotFound "x") ∧
    (create_conversation emptyConvEnv "c1" "T" "topic" ["x"] 3
        true true).1.conversations.map
      (fun c => (c.conversation_id, c.status, c.error)) =
      [("c1", "failed", some "Avatar not found: x")] := by
  exact ⟨rfl, rfl⟩

/-- Claim C7 amended: a create-conversation call containing an unresolvable
avatar id fails with the avatar-validation input error, and no dialogue
line is created; but the call is not free of state mutation — the
conversation record is created and committed with status "generating"
before validation runs, so the failed call leaves exactly one persisted
conversation row, now marked "failed" with the validation message as its
error. -/
theorem C7_unknown_actor_persists_failed_record (env : ConvEnv)
    (cid title topic : String) (avatar_ids : List String) (n : ℕ)
    (sv tr : Bool) (badId : String) (hbad : badId ∈ avatar_ids)
    (hmiss : env.profiles.find? (fun a => a.id = badId) = none) :
    ∃ b,
      (create_conversation env cid title topic avatar_ids n sv tr).2 =
        .error (ConvError.avatarNotFound b) ∧
      (create_conversation env cid title topic avatar_ids n sv tr).1.lines =
        [] ∧
      (create_conversation env cid title topic avatar_ids n
          sv tr).1.conversations =
        [markFailed
          { conversation_id := cid, title := title, topic := topic
            num_avatars := avatar_ids.length, num_exchanges := n
            status := "generating", progress := 0 }
          ("Avatar not found: " ++ b)] := by
  obtain ⟨b, hb, _⟩ :=
    loadAvatars_error_of_missing env.profiles avatar_ids badId hbad hmiss
  exact ⟨b, by simp only [create_conversation, hb], by
    simp only [create_conversation, hb],
    by simp only [create_conversation, hb, ConvError.message]⟩

/-- Witness for the amended C7: the concrete unknown-avatar call leaves the
persisted failed conversation row. -/
theorem C7_unknown_actor_persists_failed_record_witness :
    ("x" ∈ ["x"] ∧
      emptyConvEnv.profiles.find? (fun a => a.id = "x") = none) ∧
    ∃ b,
      (create_conversation emptyConvEnv "c1" "T" "topic" ["x"] 3 true true).2 =
        .error (ConvError.avatarNotFound b) ∧
      (create_conversation emptyConvEnv "c1" "T" "topic" ["x"] 3
        true true).1.lines = [] ∧
      (create_conversation emptyConvEnv "c1" "T" "topic" ["x"] 3
          true true).1.conversations =
        [markFailed
          { conversation_id := "c1", title := "T", topic := "topic"
            num_avatars := (["x"] : List String).length, num_exchanges := 3
            status := "generating", progress := 0 }
          ("Avatar not found: " ++ b)] :=
  ⟨⟨List.mem_singleton.mpr rfl, rfl⟩,
   C7_unknown_actor_persists_failed_record emptyConvEnv "c1" "T" "topic"
     ["x"] 3 true true "x" (List.mem_singleton.mpr rfl) rfl⟩

/-- Claim C8: the conversation's real line count is the number of
`(actor, text)` pairs the dialogue collaborator actually returned — not the
requested `num_exchanges`, which only parameterises the collaborator call —
and the DialogueLine rows, the rendered clips, and the segment list handed
to the stitcher line up one-to-one in sequence order: row `j` has
`sequence = j` and clip slot `j` carries exactly row `j`'s rendered clip,
with the assembled output consuming all of them. -/
theorem C8_actual_count_and_sequence_order (env : ConvEnv)
    (cid title topic : String) (avatar_ids : List String) (n : ℕ) (tr : Bool)
    (avatars : List AvatarProfile) (exchanges : List DialogueExchange)
    (hload : loadAvatars env.profiles avatar_ids = .ok avatars)
    (hav : avatars ≠ [])
    (hdial : env.dialogue n = .ok exchanges)
    (htts : ∀ s, ∃ p, env.tts s = .ok p)
    (hrender : ∀ p im o, ∃ v, env.renderVideo p im o = .ok v)
    (hfiles : ∀ p, env.media.fileExists p = true)
    (hx : env.media.xfadeOk = true) (hc : env.media.concatOk = true)
    (h2 : 2 ≤ exchanges.length) :
    (∃ conv,
      (create_conversation env cid title topic avatar_ids n true tr).2 =
        .ok conv ∧ conv.status = "completed" ∧ conv.progress = 100 ∧
      conv.final_video_path = some ("conversation_" ++ cid)) ∧
    (create_conversation env cid title topic avatar_ids n
        true tr).1.lines.length = exchanges.length ∧
    (processLines env cid avatars 0 exchanges).2.1.length =
      exchanges.length ∧
    (∀ j, j < exchanges.length →
      ∃ line seg,
        (create_conversation env cid title topic avatar_ids n
            true tr).1.lines.get? j = some line ∧
        (processLines env cid avatars 0 exchanges).2.1.get? j = some seg ∧
        line.sequence = j ∧ line.video_path = some seg.video_path) ∧
    (∃ out,
      stitchConversation env.media
        (processLines env cid avatars 0 exchanges).2.1
        ("conversation_" ++ cid) tr (3 / 10) = .ok out ∧
      out.num_segments = exchanges.length) := by
  have hpl := processLines_ok env cid avatars hav htts hrender exchanges 0
  obtain ⟨out, hout, hnum, hname, hkey⟩ := create_conversation_success_eq env
    cid title topic avatar_ids n tr avatars exchanges hload hav hdial htts
    hrender hfiles hx hc h2
  rw [hkey]
  refine ⟨⟨_, rfl, rfl, rfl, by rw [hname]⟩, hpl.2.1, hpl.2.2.1, ?_,
    out, hout, hnum⟩
  intro j hj
  obtain ⟨ex, avatar, line, seg, _, _, hline, hseg, hseqq, _, _, _, hvp⟩ :=
    hpl.2.2.2 j hj
  exact ⟨line, seg, hline, hseg, by simpa using hseqq, hvp⟩

/-- The two known avatar profiles used by the conversation witnesses. -/
def convProfiles : List AvatarProfile :=
  [{ id := "av1", name := "Alice", personality := "upbeat" },
   { id := "av2", name := "Bob", personality := "skeptical" }]

/-- Dialogue returned by the collaborator in the witnesses: two exchanges
(the second naming an actor that matches no loaded profile), even though
three were requested. -/
def convExchanges : List DialogueExchange :=
  [{ avatar_name := "Alice", text := "Hi there" },
   { avatar_name := "Carol", text := "Hello" }]

/-- Conversation environment where every collaborator succeeds and the
dialogue model returns `convExchanges` regardless of the requested count. -/
def convEnvOk : ConvEnv :=
  { profiles := convProfiles
    dialogue := fun _ => .ok convExchanges
    tts := fun _ => .ok "line.wav"
    renderVideo := fun _ _ o => .ok (o ++ ".mp4", 5)
    media := mediaEnvAll5 }

/-- Witness for C8: three exchanges requested, two returned — two lines
created, two clips assembled, in sequence order. -/
theorem C8_actual_count_and_sequence_order_witness :
    (loadAvatars convEnvOk.profiles ["av1", "av2"] = .ok convProfiles ∧
     convProfiles ≠ [] ∧
     convEnvOk.dialogue 3 = .ok convExchanges ∧
     2 ≤ convExchanges.length ∧ convExchanges.length ≠ 3) ∧
    ((∃ conv,
      (create_conversation convEnvOk "c9" "T" "topic" ["av1", "av2"] 3
        true true).2 = .ok conv ∧ conv.status = "completed" ∧
      conv.progress = 100 ∧
      conv.final_video_path = some ("conversation_" ++ "c9")) ∧
    (create_conversation convEnvOk "c9" "T" "topic" ["av1", "av2"] 3
        true true).1.lines.length = convExchanges.length ∧
    (processLines convEnvOk "c9" convProfiles 0 convExchanges).2.1.length =
      convExchanges.length ∧
    (∀ j, j < convExchanges.length →
      ∃ line seg,
        (create_conversation convEnvOk "c9" "T" "topic" ["av1", "av2"] 3
            true true).1.lines.get? j = some line ∧
        (processLines convEnvOk "c9" convProfiles 0
            convExchanges).2.1.get? j = some seg ∧
        line.sequence = j ∧ line.video_path = some seg.video_path) ∧
    (∃ out,
      stitchConversation convEnvOk.media
        (processLines convEnvOk "c9" convProfiles 0 convExchanges).2.1
        ("conversation_" ++ "c9") true (3 / 10) = .ok out ∧
      out.num_segments = convExchanges.length)) :=
  ⟨⟨by decide, by decide, rfl, by decide, by decide⟩,
   C8_actual_count_and_sequence_order convEnvOk "c9" "T" "topic"
     ["av1", "av2"] 3 true convProfiles convExchanges (by decide) (by decide)
     rfl (fun s => ⟨"line.wav", rfl⟩) (fun p im o => ⟨(o ++ ".mp4", 5), rfl⟩)
     (fun p => rfl) rfl rfl (by decide)⟩

/-- Claim C10: a dialogue exchange whose actor name matches none of the
loaded avatar profiles does not fail the conversation: the line is silently
attributed to the first avatar in the list — its profile id on the
DialogueLine row, its name on the clip segment — and the conversation still
completes successfully. -/
theorem C10_unmatched_actor_uses_first_avatar (env : ConvEnv)
    (cid title topic : String) (avatar_ids : List String) (n : ℕ) (tr : Bool)
    (a : AvatarProfile) (rest : List AvatarProfile)
    (exchanges : List DialogueExchange) (i : ℕ) (ex : DialogueExchange)
    (hload : loadAvatars env.profiles avatar_ids = .ok (a :: rest))
    (hdial : env.dialogue n = .ok exchanges)
    (hexch : exchanges.get? i = some ex)
    (hno : ∀ av ∈ a :: rest, av.name ≠ ex.avatar_name)
    (htts : ∀ s, ∃ p, env.tts s = .ok p)
    (hrender : ∀ p im o, ∃ v, env.renderVideo p im o = .ok v)
    (hfiles : ∀ p, env.media.fileExists p = true)
    (hx : env.media.xfadeOk = true) (hc : env.media.concatOk = true)
    (h2 : 2 ≤ exchanges.length) :
    (∃ conv,
      (create_conversation env cid title topic avatar_ids n true tr).2 =
        .ok conv ∧ conv.status = "completed") ∧
    (∃ line,
      (create_conversation env cid title topic avatar_ids n
          true tr).1.lines.get? i = some line ∧
      line.avatar_id = a.id ∧ line.text = ex.text) ∧
    (∃ seg,
      (processLines env cid (a :: rest) 0 exchanges).2.1.get? i = some seg ∧
      seg.avatar_name = a.name) := by
  have hav : (a :: rest) ≠ [] := by simp
  have hpl := processLines_ok env cid (a :: rest) hav htts hrender exchanges 0
  obtain ⟨out, hout, hnum, hname, hkey⟩ := create_conversation_success_eq env
    cid title topic avatar_ids n tr (a :: rest) exchanges hload hav hdial
    htts hrender hfiles hx hc h2
  have hi : i < exchanges.length := by
    rcases List.get?_eq_some.mp hexch with ⟨h, _⟩
    exact h
  obtain ⟨ex', avatar, line, seg, hex', hpick, hline, hseg, _, htext, hid,
    hsegname, _⟩ := hpl.2.2.2 i hi
  have hexeq : ex' = ex := by
    rw [hexch] at hex'
    exact (Option.some.inj hex').symm
  rw [hexeq] at hpick htext
  have haeq : avatar = a := by
    rw [pickAvatar_unmatched a rest ex.avatar_name hno] at hpick
    exact (Option.some.inj hpick).symm
  rw [haeq] at hid hsegname
  rw [hkey]
  exact ⟨⟨_, rfl, rfl⟩, ⟨line, hline, hid, htext⟩, ⟨seg, hseg, hsegname⟩⟩

/-- Witness for C10: the second exchange names "Carol", which matches no
loaded profile; the line is attributed to the first avatar ("Alice",
id "av1") and the conversation completes. -/
theorem C10_unmatched_actor_uses_first_avatar_witness :
    ((∀ av ∈ convProfiles, av.name ≠ "Carol") ∧
      convExchanges.get? 1 =
        some { avatar_name := "Carol", text := "Hello" }) ∧
    ((∃ conv,
      (create_conversation convEnvOk "c10" "T" "topic" ["av1", "av2"] 3
        true true).2 = .ok conv ∧ conv.status = "completed") ∧
    (∃ line,
      (create_conversation convEnvOk "c10" "T" "topic" ["av1", "av2"] 3
          true true).1.lines.get? 1 = some line ∧
      line.avatar_id =
        ({ id := "av1", name := "Alice", personality := "upbeat" } :
          AvatarProfile).id ∧
      line.text =
        ({ avatar_name := "Carol", text := "Hello" } : DialogueExchange).text) ∧
    (∃ seg,
      (processLines convEnvOk "c10"
        ({ id := "av1", name := "Alice", personality := "upbeat" } ::
          [{ id := "av2", name := "Bob", personality := "skeptical" }]) 0
        convExchanges).2.1.get? 1 = some seg ∧
      seg.avatar_name =
        ({ id := "av1", name := "Alice", personality := "upbeat" } :
          AvatarProfile).name)) :=
  ⟨⟨by decide, by decide⟩,
   C10_unmatched_actor_uses_first_avatar convEnvOk "c10" "T" "topic"
     ["av1", "av2"] 3 true
     { id := "av1", name := "Alice", personality := "upbeat" }
     [{ id := "av2", name := "Bob", personality := "skeptical" }]
     convExchanges 1 { avatar_name := "Carol", text := "Hello" }
     (by decide) rfl (by decide) (by decide)
     (fun s => ⟨"line.wav", rfl⟩) (fun p im o => ⟨(o ++ ".mp4", 5), rfl⟩)
     (fun p => rfl) rfl rfl (by decide)⟩

end NovaAvatar
